import Mathlib

/-!
Shallow embedding of the settlement state machine of an OTC trading desk
program. The on-chain instruction handlers are translated into pure Lean
functions over explicit record states; machine integers become `Nat`
(unsigned) or `Int` (signed 64-bit timestamps) with explicit checked
arithmetic mirroring the checked operations of the source, and fallible
handlers return `Except OtcError`.
-/

namespace Otc

/-- Account addresses are opaque 32-byte identities; modelled as naturals. -/
abbrev Pubkey := Nat

/-- Error codes, one constructor per variant of the source error enum. -/
inductive OtcError where
  | UsdcDecimals
  | AmountRange
  | Discount
  | StalePrice
  | NoPrice
  | MinUsd
  | InsuffInv
  | Overflow
  | LockupTooLong
  | BadState
  | AlreadyApproved
  | NotApproved
  | Expired
  | FulfillRestricted
  | Locked
  | NotOwner
  | NotApprover
  | TooManyApprovers
  | UnsupportedCurrency
  | Paused
  | NotExpired
  | BadPrice
  | PriceDeviationTooLarge
  | FeedNotConfigured
  | TooEarlyForRefund
  | TooManyOffers
  deriving DecidableEq, Repr

def U64MAX : Nat := 2 ^ 64 - 1

def U128MAX : Nat := 2 ^ 128 - 1

def I64MIN : Int := -(2 ^ 63)

def I64MAX : Int := 2 ^ 63 - 1

/-- Rust `u64::checked_add`. -/
def checked_add_u64 (a b : Nat) : Option Nat :=
  if a + b ≤ U64MAX then some (a + b) else none

/-- Rust `u64::checked_sub`. -/
def checked_sub_u64 (a b : Nat) : Option Nat :=
  if b ≤ a then some (a - b) else none

/-- Rust `u64::checked_mul`. -/
def checked_mul_u64 (a b : Nat) : Option Nat :=
  if a * b ≤ U64MAX then some (a * b) else none

/-- Rust `i64::checked_add`. -/
def checked_add_i64 (a b : Int) : Option Int :=
  if I64MIN ≤ a + b ∧ a + b ≤ I64MAX then some (a + b) else none

/-- Rust truncating cast `as u64` applied to a `u128` value. -/
def trunc_u64 (n : Nat) : Nat := n % 2 ^ 64

/-- Source `pow10`: `10u128.pow(exp)`. u128 multiplication wraps modulo
2^128 in a release build, so the value is the true power reduced mod 2^128
(exact for exp <= 38, and exactly 0 for exp >= 128, where the zero divisor
then surfaces as `Overflow` through `mul_div_u128`); with overflow checks
enabled the source would instead abort once the power exceeds u128, so the
theorems below stay in the range exp <= 38 where both builds compute the
true power. -/
def pow10 (e : Nat) : Nat := 10 ^ e % 2 ^ 128

/-- Source `mul_div_u128`: checked multiply then checked divide in `u128`;
division only fails on a zero divisor, and any failure surfaces as
`Overflow`. -/
def mul_div_u128 (a b d : Nat) : Except OtcError Nat :=
  if a * b ≤ U128MAX then
    if d = 0 then .error .Overflow else .ok (a * b / d)
  else .error .Overflow

/-- Source `mul_div_ceil_u128`: checked multiply, then ceiling division
(the source divides and rounds up when the remainder is nonzero). -/
def mul_div_ceil_u128 (a b d : Nat) : Except OtcError Nat :=
  if a * b ≤ U128MAX then
    .ok (if a * b % d = 0 then a * b / d else a * b / d + 1)
  else .error .Overflow

/-- The `Desk` account record. Feed identifiers (32-byte arrays in the
source) are modelled as opaque naturals with 0 for the all-zero id. -/
structure Desk where
  owner : Pubkey
  agent : Pubkey
  usdc_mint : Pubkey
  usdc_decimals : Nat
  min_usd_amount_8d : Nat
  quote_expiry_secs : Int
  max_price_age_secs : Int
  restrict_fulfill : Bool
  approvers : List Pubkey
  next_consignment_id : Nat
  next_offer_id : Nat
  paused : Bool
  sol_price_feed_id : Nat
  sol_usd_price_8d : Nat
  prices_updated_at : Int
  token_mint : Pubkey
  token_decimals : Nat
  token_deposited : Nat
  token_reserved : Nat
  token_price_feed_id : Nat
  token_usd_price_8d : Nat
  default_unlock_delay_secs : Int
  max_lockup_secs : Int
  max_token_per_order : Nat
  emergency_refund_enabled : Bool
  emergency_refund_deadline_secs : Int
  deriving DecidableEq, Repr

/-- The `TokenRegistry` account record. -/
structure TokenRegistry where
  desk : Pubkey
  token_mint : Pubkey
  decimals : Nat
  price_feed_id : Nat
  is_active : Bool
  token_usd_price_8d : Nat
  prices_updated_at : Int
  deriving DecidableEq, Repr

/-- The `Consignment` account record. -/
structure Consignment where
  desk : Pubkey
  id : Nat
  token_mint : Pubkey
  consigner : Pubkey
  total_amount : Nat
  remaining_amount : Nat
  is_negotiable : Bool
  fixed_discount_bps : Nat
  fixed_lockup_days : Nat
  min_discount_bps : Nat
  max_discount_bps : Nat
  min_lockup_days : Nat
  max_lockup_days : Nat
  min_deal_amount : Nat
  max_deal_amount : Nat
  is_fractionalized : Bool
  is_private : Bool
  max_price_volatility_bps : Nat
  max_time_to_execute_secs : Int
  is_active : Bool
  created_at : Int
  deriving DecidableEq, Repr

/-- The `Offer` account record. -/
structure Offer where
  desk : Pubkey
  consignment_id : Nat
  token_mint : Pubkey
  id : Nat
  beneficiary : Pubkey
  token_amount : Nat
  discount_bps : Nat
  created_at : Int
  unlock_time : Int
  price_usd_per_token_8d : Nat
  max_price_deviation_bps : Nat
  sol_usd_price_8d : Nat
  currency : Nat
  approved : Bool
  paid : Bool
  fulfilled : Bool
  cancelled : Bool
  payer : Pubkey
  amount_paid : Nat
  deriving DecidableEq, Repr

/-- Source `available_inventory`: live treasury balance minus the reserved
total, clamped at zero. -/
def available_inventory (desk : Desk) (treasury_balance : Nat) : Nat :=
  if treasury_balance < desk.token_reserved then 0
  else treasury_balance - desk.token_reserved

/-- Source `only_owner`. -/
def only_owner (desk : Desk) (who : Pubkey) : Except OtcError Unit :=
  if who = desk.owner then .ok () else .error .NotOwner

/-- Source `must_be_approver`: the agent or any listed approver. -/
def must_be_approver (desk : Desk) (who : Pubkey) : Except OtcError Unit :=
  if who = desk.agent ∨ desk.approvers.contains who then .ok ()
  else .error .NotApprover

/-- The price deviation guard block of `update_prices_from_pyth` (the two
blocks of the source are textually identical up to the field used): when a
previous price > 0 is stored and a deviation cap > 0 is supplied, require
`|new - old| <= old * maxBps / 10000` (u128 floor arithmetic). -/
def deviation_guard (old_price new_price max_bps : Nat) : Except OtcError Unit :=
  if old_price > 0 ∧ max_bps > 0 then
    let price_diff := if new_price > old_price then new_price - old_price
      else old_price - new_price
    let max_deviation := old_price * max_bps / 10000
    if price_diff ≤ max_deviation then .ok () else .error .PriceDeviationTooLarge
  else .ok ()

/-- The deviation-check and price-store portion of `update_prices_from_pyth`
(lines after the oracle reads): the guard is applied to the traded-token
price and then, independently, to the SOL/USD price; on success both cached
prices and the update timestamp are written. -/
def update_prices_deviation (desk : Desk) (token_usd_8d sol_usd_8d max_bps : Nat)
    (now : Int) : Except OtcError Desk :=
  match deviation_guard desk.token_usd_price_8d token_usd_8d max_bps with
  | .error e => .error e
  | .ok _ =>
    match deviation_guard desk.sol_usd_price_8d sol_usd_8d max_bps with
    | .error e => .error e
    | .ok _ => .ok { desk with
        token_usd_price_8d := token_usd_8d,
        sol_usd_price_8d := sol_usd_8d,
        prices_updated_at := now }

/-- Source `approve_offer`. -/
def approve_offer (desk : Desk) (offer : Offer) (approver : Pubkey) :
    Except OtcError Offer :=
  if desk.paused then .error .Paused
  else match must_be_approver desk approver with
  | .error e => .error e
  | .ok _ =>
    if offer.cancelled ∨ offer.paid then .error .BadState
    else if offer.approved then .error .AlreadyApproved
    else .ok { offer with approved := true }

/-- Source `cancel_offer`. The beneficiary may cancel only after the quote
expiry; owner, agent and approvers may cancel any time; the beneficiary
branch is tested first. -/
def cancel_offer (desk : Desk) (offer : Offer) (caller : Pubkey) (now : Int) :
    Except OtcError Offer :=
  if desk.paused then .error .Paused
  else if offer.paid ∨ offer.fulfilled then .error .BadState
  else if caller = offer.beneficiary then
    match checked_add_i64 offer.created_at desk.quote_expiry_secs with
    | none => .error .Overflow
    | some expiry =>
      if now < expiry then .error .NotExpired
      else .ok { offer with cancelled := true }
  else if caller = desk.owner ∨ caller = desk.agent ∨ desk.approvers.contains caller then
    .ok { offer with cancelled := true }
  else .error .NotApprover

/-- The discounted USD total shared by offer creation and both fulfill
variants: `mul_div_u128(amount, price, 10^dec)` truncated to u64, then
`checked_mul(10000 - discount)` and division by 10000 (the checked division
by the nonzero constant 10000 of the source never fails). -/
def discounted_usd_8d (token_amount price_8d token_dec discount_bps : Nat) :
    Except OtcError Nat :=
  match mul_div_u128 token_amount price_8d (pow10 token_dec) with
  | .error e => .error e
  | .ok t =>
    match checked_mul_u64 (trunc_u64 t) (10000 - discount_bps) with
    | none => .error .Overflow
    | some m => .ok (m / 10000)

/-- Source `fulfill_offer_usdc`. The returned triple is the updated desk,
the updated offer, and the USDC amount transferred from the payer to the
desk treasury. -/
def fulfill_offer_usdc (desk : Desk) (offer : Offer) (treasury_balance : Nat)
    (payer : Pubkey) (now : Int) : Except OtcError (Desk × Offer × Nat) :=
  if desk.paused then .error .Paused
  else if ¬ offer.currency = 1 then .error .BadState
  else if ¬ offer.approved then .error .NotApproved
  else if offer.cancelled ∨ offer.paid ∨ offer.fulfilled then .error .BadState
  else match checked_add_i64 offer.created_at desk.quote_expiry_secs with
  | none => .error .Overflow
  | some expiry =>
    if ¬ now ≤ expiry then .error .Expired
    else if ¬ offer.token_amount ≤ available_inventory desk treasury_balance then
      .error .InsuffInv
    else if desk.restrict_fulfill ∧
        ¬ (payer = offer.beneficiary ∨ payer = desk.owner ∨ payer = desk.agent ∨
           desk.approvers.contains payer) then
      .error .FulfillRestricted
    else match discounted_usd_8d offer.token_amount offer.price_usd_per_token_8d
        desk.token_decimals offer.discount_bps with
    | .error e => .error e
    | .ok usd_8d =>
      match mul_div_ceil_u128 usd_8d 1000000 100000000 with
      | .error e => .error e
      | .ok c =>
        let usdc_amount := trunc_u64 c
        match checked_add_u64 desk.token_reserved offer.token_amount with
        | none => .error .Overflow
        | some reserved =>
          .ok ({ desk with token_reserved := reserved },
               { offer with amount_paid := usdc_amount, payer := payer, paid := true },
               usdc_amount)

/-- Source `fulfill_offer_sol`. The returned triple is the updated desk,
the updated offer, and the lamports transferred from the payer. -/
def fulfill_offer_sol (desk : Desk) (offer : Offer) (treasury_balance : Nat)
    (payer : Pubkey) (now : Int) : Except OtcError (Desk × Offer × Nat) :=
  if desk.paused then .error .Paused
  else if ¬ offer.currency = 0 then .error .BadState
  else if ¬ offer.approved then .error .NotApproved
  else if offer.cancelled ∨ offer.paid ∨ offer.fulfilled then .error .BadState
  else match checked_add_i64 offer.created_at desk.quote_expiry_secs with
  | none => .error .Overflow
  | some expiry =>
    if ¬ now ≤ expiry then .error .Expired
    else if ¬ offer.token_amount ≤ available_inventory desk treasury_balance then
      .error .InsuffInv
    else if desk.restrict_fulfill ∧
        ¬ (payer = offer.beneficiary ∨ payer = desk.owner ∨ payer = desk.agent ∨
           desk.approvers.contains payer) then
      .error .FulfillRestricted
    else match discounted_usd_8d offer.token_amount offer.price_usd_per_token_8d
        desk.token_decimals offer.discount_bps with
    | .error e => .error e
    | .ok usd_8d =>
      let sol_usd := if offer.sol_usd_price_8d > 0 then offer.sol_usd_price_8d
        else desk.sol_usd_price_8d
      if ¬ sol_usd > 0 then .error .NoPrice
      else match mul_div_ceil_u128 usd_8d 1000000000 sol_usd with
      | .error e => .error e
      | .ok c =>
        let lamports_req := trunc_u64 c
        match checked_add_u64 desk.token_reserved offer.token_amount with
        | none => .error .Overflow
        | some reserved =>
          .ok ({ desk with token_reserved := reserved },
               { offer with amount_paid := lamports_req, payer := payer, paid := true },
               lamports_req)

/-- Source `claim`. `desk_key` is the address of the desk account and
`desk_signer` the signing authority supplied by the caller; `beneficiary`
is the beneficiary account passed in. -/
def claim (desk : Desk) (desk_key desk_signer : Pubkey) (offer : Offer)
    (beneficiary : Pubkey) (now : Int) : Except OtcError (Desk × Offer) :=
  if desk.paused then .error .Paused
  else if ¬ desk_signer = desk_key then .error .NotOwner
  else if ¬ beneficiary = offer.beneficiary then .error .NotOwner
  else if ¬ (offer.paid ∧ ¬ offer.cancelled ∧ ¬ offer.fulfilled) then .error .BadState
  else if now < offer.unlock_time then .error .Locked
  else match checked_sub_u64 desk.token_reserved offer.token_amount with
  | none => .error .Overflow
  | some reserved =>
    .ok ({ desk with token_reserved := reserved }, { offer with fulfilled := true })

/-- Source `emergency_refund_sol`. -/
def emergency_refund_sol (desk : Desk) (offer : Offer) (caller : Pubkey)
    (now : Int) : Except OtcError (Desk × Offer) :=
  if ¬ desk.emergency_refund_enabled then .error .BadState
  else if ¬ (offer.paid ∧ ¬ offer.fulfilled ∧ ¬ offer.cancelled) then .error .BadState
  else if ¬ offer.currency = 0 then .error .BadState
  else match checked_add_i64 offer.created_at desk.emergency_refund_deadline_secs with
  | none => .error .Overflow
  | some deadline =>
    match checked_add_i64 offer.unlock_time (30 * 86400) with
    | none => .error .Overflow
    | some unlock_deadline =>
      if ¬ (now ≥ deadline ∨ now ≥ unlock_deadline) then .error .TooEarlyForRefund
      else if ¬ (caller = offer.payer ∨ caller = offer.beneficiary ∨
          caller = desk.owner ∨ caller = desk.agent ∨
          desk.approvers.contains caller) then .error .NotOwner
      else match checked_sub_u64 desk.token_reserved offer.token_amount with
      | none => .error .Overflow
      | some reserved =>
        .ok ({ desk with token_reserved := reserved },
             { offer with cancelled := true })

/-- Source `emergency_refund_usdc`. -/
def emergency_refund_usdc (desk : Desk) (offer : Offer) (caller : Pubkey)
    (now : Int) : Except OtcError (Desk × Offer) :=
  if ¬ desk.emergency_refund_enabled then .error .BadState
  else if ¬ (offer.paid ∧ ¬ offer.fulfilled ∧ ¬ offer.cancelled) then .error .BadState
  else if ¬ offer.currency = 1 then .error .BadState
  else match checked_add_i64 offer.created_at desk.emergency_refund_deadline_secs with
  | none => .error .Overflow
  | some deadline =>
    match checked_add_i64 offer.unlock_time (30 * 86400) with
    | none => .error .Overflow
    | some unlock_deadline =>
      if ¬ (now ≥ deadline ∨ now ≥ unlock_deadline) then .error .TooEarlyForRefund
      else if ¬ (caller = offer.payer ∨ caller = offer.beneficiary ∨
          caller = desk.owner ∨ caller = desk.agent ∨
          desk.approvers.contains caller) then .error .NotOwner
      else match checked_sub_u64 desk.token_reserved offer.token_amount with
      | none => .error .Overflow
      | some reserved =>
        .ok ({ desk with token_reserved := reserved },
             { offer with cancelled := true })

/-- The block of offer field assignments of `create_offer_from_consignment`
(lines `offer.desk = ...` through `offer.amount_paid = 0`). -/
def created_offer_record (desk : Desk) (desk_key : Pubkey)
    (consignment : Consignment) (registry : TokenRegistry)
    (beneficiary : Pubkey) (consignment_id token_amount discount_bps : Nat)
    (currency : Nat) (now unlock : Int) : Offer :=
  { desk := desk_key,
    consignment_id := consignment_id,
    token_mint := consignment.token_mint,
    id := desk.next_offer_id,
    beneficiary := beneficiary,
    token_amount := token_amount,
    discount_bps := discount_bps,
    created_at := now,
    unlock_time := unlock,
    price_usd_per_token_8d := registry.token_usd_price_8d,
    max_price_deviation_bps := consignment.max_price_volatility_bps,
    sol_usd_price_8d := if currency = 0 then desk.sol_usd_price_8d else 0,
    currency := currency,
    approved := false,
    paid := false,
    fulfilled := false,
    cancelled := false,
    payer := 0,
    amount_paid := 0 }

/-- The guard chain of `create_offer_from_consignment`, from the pause check
through the price staleness check, in source order. Rust i64 division
truncates toward zero, hence `Int.tdiv` for the lockup-day computation. -/
def create_offer_validate (desk : Desk) (consignment : Consignment)
    (registry : TokenRegistry) (token_amount discount_bps currency : Nat)
    (lockup_secs now : Int) : Except OtcError Unit :=
  if desk.paused then .error .Paused
  else if ¬ (currency = 0 ∨ currency = 1) then .error .UnsupportedCurrency
  else if ¬ consignment.is_active then .error .BadState
  else if ¬ (consignment.min_deal_amount ≤ token_amount ∧
      token_amount ≤ consignment.max_deal_amount) then .error .AmountRange
  else if ¬ token_amount ≤ consignment.remaining_amount then .error .InsuffInv
  else if (if consignment.is_negotiable then
      ¬ (consignment.min_discount_bps ≤ discount_bps ∧
         discount_bps ≤ consignment.max_discount_bps)
    else ¬ discount_bps = consignment.fixed_discount_bps) then .error .Discount
  else if (if consignment.is_negotiable then
      ¬ ((consignment.min_lockup_days : Int) ≤ lockup_secs.tdiv 86400 ∧
         lockup_secs.tdiv 86400 ≤ (consignment.max_lockup_days : Int))
    else ¬ lockup_secs.tdiv 86400 = (consignment.fixed_lockup_days : Int)) then
    .error .LockupTooLong
  else if ¬ registry.token_usd_price_8d > 0 then .error .NoPrice
  else if registry.prices_updated_at > 0 ∧
      ¬ now - registry.prices_updated_at ≤ desk.max_price_age_secs then
    .error .StalePrice
  else .ok ()

/-- Source `create_offer_from_consignment`. The `offer` account is declared
`init_if_needed`, so an already-existing offer record at that address is
accepted and every one of its fields is overwritten unconditionally;
`prev_offer` models the pre-existing contents, which the handler never
reads. -/
def create_offer_from_consignment (desk : Desk) (desk_key : Pubkey)
    (consignment : Consignment) (registry : TokenRegistry)
    (beneficiary : Pubkey) (prev_offer : Offer) (consignment_id : Nat)
    (token_amount : Nat) (discount_bps : Nat) (currency : Nat)
    (lockup_secs : Int) (now : Int) :
    Except OtcError (Desk × Consignment × Offer) :=
  match create_offer_validate desk consignment registry token_amount
      discount_bps currency lockup_secs now with
  | .error e => .error e
  | .ok _ =>
    match discounted_usd_8d token_amount registry.token_usd_price_8d
      registry.decimals discount_bps with
  | .error e => .error e
  | .ok total_usd_disc =>
    if ¬ total_usd_disc ≥ desk.min_usd_amount_8d then .error .MinUsd
    else match checked_sub_u64 consignment.remaining_amount token_amount with
    | none => .error .Overflow
    | some remaining =>
      match checked_add_u64 desk.next_offer_id 1 with
      | none => .error .Overflow
      | some next_id =>
        match checked_add_i64 now lockup_secs with
        | none => .error .Overflow
        | some unlock =>
          .ok ({ desk with next_offer_id := next_id },
               { consignment with
                  remaining_amount := remaining,
                  is_active := if remaining = 0 then false else consignment.is_active },
               created_offer_record desk desk_key consignment registry
                 beneficiary consignment_id token_amount discount_bps currency
                 now unlock)

/-- One constructor per program operation that can touch an existing offer
account, carrying the operation's free inputs. -/
inductive Op where
  | approve (approver : Pubkey)
  | cancel (caller : Pubkey) (now : Int)
  | fulfillUsdc (treasury_balance : Nat) (payer : Pubkey) (now : Int)
  | fulfillSol (treasury_balance : Nat) (payer : Pubkey) (now : Int)
  | claimTokens (desk_key desk_signer beneficiary : Pubkey) (now : Int)
  | refundSol (caller : Pubkey) (now : Int)
  | refundUsdc (caller : Pubkey) (now : Int)
  | create (desk_key : Pubkey) (consignment : Consignment)
      (registry : TokenRegistry) (beneficiary : Pubkey)
      (consignment_id token_amount discount_bps currency : Nat)
      (lockup_secs now : Int)
  deriving Repr

/-- Whether the operation is offer (re-)creation. -/
def Op.isCreate : Op → Bool
  | .create .. => true
  | _ => false

/-- Apply an operation to the desk and the offer account it targets,
returning their updated contents on success. -/
def applyOp (desk : Desk) (offer : Offer) : Op → Except OtcError (Desk × Offer)
  | .approve a =>
    match approve_offer desk offer a with
    | .error e => .error e
    | .ok o => .ok (desk, o)
  | .cancel c now =>
    match cancel_offer desk offer c now with
    | .error e => .error e
    | .ok o => .ok (desk, o)
  | .fulfillUsdc bal payer now =>
    match fulfill_offer_usdc desk offer bal payer now with
    | .error e => .error e
    | .ok (d, o, _) => .ok (d, o)
  | .fulfillSol bal payer now =>
    match fulfill_offer_sol desk offer bal payer now with
    | .error e => .error e
    | .ok (d, o, _) => .ok (d, o)
  | .claimTokens dk ds b now => claim desk dk ds offer b now
  | .refundSol c now => emergency_refund_sol desk offer c now
  | .refundUsdc c now => emergency_refund_usdc desk offer c now
  | .create dk cons reg b cid amt disc cur lock now =>
    match create_offer_from_consignment desk dk cons reg b offer cid amt disc
        cur lock now with
    | .error e => .error e
    | .ok (d, _, o) => .ok (d, o)

/-- The offer-flag invariant of the specification: at most one of
fulfilled/cancelled, and fulfilled implies paid and not cancelled. -/
def OfferInv (o : Offer) : Prop :=
  ¬ (o.fulfilled = true ∧ o.cancelled = true) ∧
  (o.fulfilled = true → o.paid = true ∧ o.cancelled = false)

/-- A concrete desk used to instantiate universally quantified theorems. -/
def testDesk : Desk :=
  { owner := 1, agent := 2, usdc_mint := 10, usdc_decimals := 6,
    min_usd_amount_8d := 0, quote_expiry_secs := 3600,
    max_price_age_secs := 3600, restrict_fulfill := false, approvers := [3],
    next_consignment_id := 1, next_offer_id := 1, paused := false,
    sol_price_feed_id := 0, sol_usd_price_8d := 10000000000,
    prices_updated_at := 0, token_mint := 11, token_decimals := 6,
    token_deposited := 0, token_reserved := 100, token_price_feed_id := 0,
    token_usd_price_8d := 100000000, default_unlock_delay_secs := 0,
    max_lockup_secs := 31536000, max_token_per_order := 10000000000,
    emergency_refund_enabled := true,
    emergency_refund_deadline_secs := 2592000 }

/-- A concrete offer used to instantiate universally quantified theorems. -/
def testOffer : Offer :=
  { desk := 0, consignment_id := 1, token_mint := 11, id := 1,
    beneficiary := 5, token_amount := 100, discount_bps := 500,
    created_at := 0, unlock_time := 86400, price_usd_per_token_8d := 100000000,
    max_price_deviation_bps := 0, sol_usd_price_8d := 0, currency := 1,
    approved := false, paid := false, fulfilled := false, cancelled := false,
    payer := 7, amount_paid := 0 }

/-- A concrete consignment used to instantiate universally quantified
theorems. -/
def testCons : Consignment :=
  { desk := 0, id := 1, token_mint := 11, consigner := 4,
    total_amount := 1000, remaining_amount := 1000, is_negotiable := true,
    fixed_discount_bps := 0, fixed_lockup_days := 0, min_discount_bps := 0,
    max_discount_bps := 1000, min_lockup_days := 0, max_lockup_days := 365,
    min_deal_amount := 1, max_deal_amount := 1000, is_fractionalized := false,
    is_private := false, max_price_volatility_bps := 0,
    max_time_to_execute_secs := 0, is_active := true, created_at := 0 }

/-- A concrete token registry used to instantiate universally quantified
theorems. -/
def testReg : TokenRegistry :=
  { desk := 0, token_mint := 11, decimals := 6, price_feed_id := 0,
    is_active := true, token_usd_price_8d := 100000000,
    prices_updated_at := 0 }

/-- The concrete desk instance with the pause flag raised. -/
def pausedDesk : Desk := { testDesk with paused := true }

/-- Claim C9: `available_inventory` never returns a negative value — it is
the treasury balance minus the reserved total clamped at zero; with the
balance equal to the reserved total it returns 0, and with nothing reserved
it returns the balance. -/
theorem C9_available_inventory_clamped :
    ∀ (desk : Desk) (bal : Nat),
      ((available_inventory desk bal : Int) =
        max 0 ((bal : Int) - (desk.token_reserved : Int))) ∧
      (desk.token_reserved ≤ bal →
        available_inventory desk bal = bal - desk.token_reserved) ∧
      available_inventory desk desk.token_reserved = 0 ∧
      (desk.token_reserved = 0 → available_inventory desk bal = bal) := by
  intro desk bal
  unfold available_inventory
  refine ⟨?_, ?_, ?_, ?_⟩ <;> split_ifs <;> omega

/-- Witness for C9 at a concrete desk: reserved = 100. -/
theorem C9_available_inventory_clamped_witness :
    available_inventory testDesk 150 = 50 ∧ available_inventory testDesk 100 = 0 := by
  constructor
  · exact ((C9_available_inventory_clamped testDesk 150).2.1 (by decide)).trans rfl
  · exact (C9_available_inventory_clamped testDesk 100).2.2.1

/-- Claim C10: when the desk is paused, approve, cancel, both fulfill
variants and claim all fail with `Paused` whatever the other inputs are (the
pause gate is the first check of each handler, so no state is mutated). -/
theorem C10_paused_blocks_lifecycle :
    ∀ (desk : Desk) (offer : Offer) (a c payer dk ds b : Pubkey)
      (bal : Nat) (now : Int),
      desk.paused = true →
      approve_offer desk offer a = .error .Paused ∧
      cancel_offer desk offer c now = .error .Paused ∧
      fulfill_offer_usdc desk offer bal payer now = .error .Paused ∧
      fulfill_offer_sol desk offer bal payer now = .error .Paused ∧
      claim desk dk ds offer b now = .error .Paused := by
  intro desk offer a c payer dk ds b bal now h
  refine ⟨?_, ?_, ?_, ?_, ?_⟩ <;>
    simp [approve_offer, cancel_offer, fulfill_offer_usdc, fulfill_offer_sol,
      claim, h]

/-- Witness for C10 at concrete inputs: a paused desk blocks even the
beneficiary claiming an already-unlocked paid offer and the owner
cancelling. -/
theorem C10_paused_blocks_lifecycle_witness :
    approve_offer pausedDesk testOffer 2 = .error .Paused ∧
    cancel_offer pausedDesk testOffer 1 999999 = .error .Paused ∧
    fulfill_offer_usdc pausedDesk testOffer 1000 7 0 = .error .Paused ∧
    fulfill_offer_sol pausedDesk testOffer 1000 7 0 = .error .Paused ∧
    claim pausedDesk 0 0 { testOffer with paid := true } 5 999999 = .error .Paused :=
  C10_paused_blocks_lifecycle pausedDesk testOffer 2 1 7 0 0 5 1000 999999 rfl
    |>.imp id (fun h => h.imp id (fun h => h.imp id (fun h => h.imp id
      (fun _ => C10_paused_blocks_lifecycle pausedDesk
        { testOffer with paid := true } 2 1 7 0 0 5 1000 999999 rfl |>.2.2.2.2))))

/-- Every error produced by the deviation guard is `PriceDeviationTooLarge`. -/
theorem deviation_guard_error_kind (oldp newp bps : Nat) (e : OtcError)
    (h : deviation_guard oldp newp bps = .error e) :
    e = .PriceDeviationTooLarge := by
  simp only [deviation_guard] at h
  split_ifs at h <;> simp_all

/-- Claim C7: the deviation guard, active when the stored price and the cap
are positive, rejects exactly when `|new - old| * 10000 > old * maxBps`;
at old = 100000000 and maxBps = 500 it accepts exactly the prices in
[95000000, 105000000]; and the embedded price-update step applies the same
guard independently to the token price and the SOL price. -/
theorem C7_deviation_guard_exact :
    (∀ oldp newp bps : Nat, oldp > 0 → bps > 0 →
      (deviation_guard oldp newp bps = .error .PriceDeviationTooLarge ↔
        (if newp > oldp then newp - oldp else oldp - newp) * 10000 > oldp * bps)) ∧
    (∀ n : Nat, deviation_guard 100000000 n 500 = .ok () ↔
      95000000 ≤ n ∧ n ≤ 105000000) ∧
    (∀ (desk : Desk) (tok sol bps : Nat) (now : Int),
      update_prices_deviation desk tok sol bps now = .error .PriceDeviationTooLarge ↔
        (deviation_guard desk.token_usd_price_8d tok bps = .error .PriceDeviationTooLarge ∨
         deviation_guard desk.sol_usd_price_8d sol bps = .error .PriceDeviationTooLarge)) := by
  refine ⟨?_, ?_, ?_⟩
  · intro oldp newp bps h1 h2
    unfold deviation_guard
    rw [if_pos ⟨h1, h2⟩]
    split_ifs <;> simp_all <;> omega
  · intro n
    unfold deviation_guard
    rw [if_pos (by norm_num)]
    split_ifs with h <;> simp_all <;> omega
  · intro desk tok sol bps now
    unfold update_prices_deviation
    cases h1 : deviation_guard desk.token_usd_price_8d tok bps with
    | error e =>
      have := deviation_guard_error_kind _ _ _ _ h1
      subst this
      simp
    | ok u =>
      cases h2 : deviation_guard desk.sol_usd_price_8d sol bps with
      | error e =>
        have := deviation_guard_error_kind _ _ _ _ h2
        subst this
        simp
      | ok v => simp

/-- Witness for C7 at concrete prices: 105000001 is rejected, 105000000 and
95000000 are accepted, and the SOL leg alone trips the combined update. -/
theorem C7_deviation_guard_exact_witness :
    deviation_guard 100000000 105000001 500 = .error .PriceDeviationTooLarge ∧
    deviation_guard 100000000 105000000 500 = .ok () ∧
    deviation_guard 100000000 95000000 500 = .ok () ∧
    update_prices_deviation testDesk 100000000 20000000000 500 7 =
      .error .PriceDeviationTooLarge := by
  refine ⟨?_, ?_, ?_, ?_⟩
  · exact (C7_deviation_guard_exact.1 100000000 105000001 500 (by norm_num)
      (by norm_num)).mpr (by norm_num)
  · exact (C7_deviation_guard_exact.2.1 105000000).mpr (by norm_num)
  · exact (C7_deviation_guard_exact.2.1 95000000).mpr (by norm_num)
  · exact (C7_deviation_guard_exact.2.2 testDesk 100000000 20000000000 500 7).mpr
      (Or.inr (by rfl))

/-- Claim C8: approve succeeds only for the agent or a listed approver
(`NotApprover` otherwise); for an authorized caller it fails `BadState` on a
cancelled or paid offer, `AlreadyApproved` on an approved one; a successful
call sets exactly the approved flag, and a second call on the result fails
with `AlreadyApproved`. Failed calls return only an error, so no state
changes. -/
theorem C8_approve_gating :
    ∀ (desk : Desk) (offer : Offer) (a : Pubkey),
      desk.paused = false →
      ((¬ (a = desk.agent ∨ desk.approvers.contains a) →
          approve_offer desk offer a = .error .NotApprover) ∧
       (∀ o', approve_offer desk offer a = .ok o' →
          (a = desk.agent ∨ desk.approvers.contains a)) ∧
       ((a = desk.agent ∨ desk.approvers.contains a) →
          (offer.cancelled = true ∨ offer.paid = true) →
          approve_offer desk offer a = .error .BadState) ∧
       ((a = desk.agent ∨ desk.approvers.contains a) →
          offer.cancelled = false → offer.paid = false → offer.approved = true →
          approve_offer desk offer a = .error .AlreadyApproved) ∧
       ((a = desk.agent ∨ desk.approvers.contains a) →
          offer.cancelled = false → offer.paid = false → offer.approved = false →
          approve_offer desk offer a = .ok { offer with approved := true } ∧
          approve_offer desk { offer with approved := true } a =
            .error .AlreadyApproved)) := by
  intro desk offer a hp
  refine ⟨?_, ?_, ?_, ?_, ?_⟩
  · intro hn
    simp only [approve_offer, must_be_approver, hp]
    rw [if_neg (by simp), if_neg hn]
  · intro o' h
    by_contra hn
    simp only [approve_offer, must_be_approver, hp] at h
    rw [if_neg (by simp), if_neg hn] at h
    exact absurd h (by simp)
  · intro ha hb
    simp only [approve_offer, must_be_approver, hp]
    rw [if_neg (by simp), if_pos ha]
    rcases hb with hb | hb <;> simp [hb]
  · intro ha hc hpd happ
    simp only [approve_offer, must_be_approver, hp]
    rw [if_neg (by simp), if_pos ha]
    simp [hc, hpd, happ]
  · intro ha hc hpd happ
    constructor
    · simp only [approve_offer, must_be_approver, hp]
      rw [if_neg (by simp), if_pos ha]
      simp [hc, hpd, happ]
    · simp only [approve_offer, must_be_approver, hp]
      rw [if_neg (by simp), if_pos ha]
      simp [hc, hpd]

/-- Witness for C8 at concrete inputs: the agent approves a fresh offer,
and approving the result again fails with `AlreadyApproved`. -/
theorem C8_approve_gating_witness :
    approve_offer testDesk testOffer 2 = .ok { testOffer with approved := true } ∧
    approve_offer testDesk { testOffer with approved := true } 2 =
      .error .AlreadyApproved :=
  (C8_approve_gating testDesk testOffer 2 rfl).2.2.2.2 (Or.inl rfl) rfl rfl rfl

/-- Counterexample to C1 as stated: a non-stakeholder caller (999) before
both refund deadlines receives `TooEarlyForRefund`, not a `NotOwner`-class
error — the timing check precedes the caller check in the source. -/
theorem C1_counterexample_timing_precedes_auth :
    emergency_refund_sol testDesk { testOffer with paid := true, currency := 0 }
      999 0 = .error .TooEarlyForRefund ∧
    (Except.error OtcError.TooEarlyForRefund : Except OtcError (Desk × Offer)) ≠
      .error .NotOwner := by
  constructor
  · rfl
  · intro h
    injection h with h2
    cases h2

/-- Claim C1 (amended): with the refund prerequisites satisfied (enabled,
paid, unfulfilled, uncancelled, deadline arithmetic in i64 range), a refund
before both `created_at + deadline` and `unlock_time + 30d` fails with
`TooEarlyForRefund` regardless of the caller; once the timing condition
holds, a caller who is none of payer, beneficiary, owner, agent, approver
fails with `NotOwner`. -/
theorem C1_refund_timing_then_auth :
    ∀ (desk : Desk) (offer : Offer) (caller : Pubkey) (now : Int),
      desk.emergency_refund_enabled = true →
      offer.paid = true → offer.fulfilled = false → offer.cancelled = false →
      (I64MIN ≤ offer.created_at + desk.emergency_refund_deadline_secs ∧
        offer.created_at + desk.emergency_refund_deadline_secs ≤ I64MAX) →
      (I64MIN ≤ offer.unlock_time + 30 * 86400 ∧
        offer.unlock_time + 30 * 86400 ≤ I64MAX) →
      ((now < offer.created_at + desk.emergency_refund_deadline_secs ∧
        now < offer.unlock_time + 30 * 86400) →
         (offer.currency = 0 →
           emergency_refund_sol desk offer caller now = .error .TooEarlyForRefund) ∧
         (offer.currency = 1 →
           emergency_refund_usdc desk offer caller now = .error .TooEarlyForRefund)) ∧
      ((now ≥ offer.created_at + desk.emergency_refund_deadline_secs ∨
        now ≥ offer.unlock_time + 30 * 86400) →
       ¬ (caller = offer.payer ∨ caller = offer.beneficiary ∨
          caller = desk.owner ∨ caller = desk.agent ∨
          desk.approvers.contains caller) →
         (offer.currency = 0 →
           emergency_refund_sol desk offer caller now = .error .NotOwner) ∧
         (offer.currency = 1 →
           emergency_refund_usdc desk offer caller now = .error .NotOwner)) := by
  intro desk offer caller now he hpd hf hc hb1 hb2
  obtain ⟨hb1a, hb1b⟩ := hb1
  obtain ⟨hb2a, hb2b⟩ := hb2
  have hb2an : I64MIN ≤ offer.unlock_time + 2592000 := by omega
  have hb2bn : offer.unlock_time + 2592000 ≤ I64MAX := by omega
  constructor
  · rintro ⟨ht1, ht2⟩
    have ht1n : ¬ offer.created_at + desk.emergency_refund_deadline_secs ≤ now := by
      omega
    have ht2n : now < offer.unlock_time + 2592000 := by omega
    constructor <;> intro hcur <;>
      simp [emergency_refund_sol, emergency_refund_usdc, checked_add_i64,
        he, hpd, hf, hc, hcur, hb1a, hb1b, hb2an, hb2bn, ht1n, ht2n]
  · intro htime hauth
    push_neg at hauth
    obtain ⟨ha1, ha2, ha3, ha4, ha5⟩ := hauth
    have ha5n : caller ∉ desk.approvers := by simpa using ha5
    have htime2 : offer.created_at + desk.emergency_refund_deadline_secs ≤ now ∨
        offer.unlock_time + 2592000 ≤ now := by
      rcases htime with h | h
      exacts [Or.inl h, Or.inr (by omega)]
    constructor <;> intro hcur <;> rcases htime2 with ht | ht <;>
      simp [emergency_refund_sol, emergency_refund_usdc, checked_add_i64,
        he, hpd, hf, hc, hcur, hb1a, hb1b, hb2an, hb2bn, ha1, ha2, ha3, ha4,
        ha5n, not_lt.mpr ht]

/-- Witness for C1 at concrete inputs: before the deadlines the refund is
too early whoever calls; after them a stranger is rejected as `NotOwner`. -/
theorem C1_refund_timing_then_auth_witness :
    emergency_refund_usdc testDesk { testOffer with paid := true } 999 0 =
      .error .TooEarlyForRefund ∧
    emergency_refund_usdc testDesk { testOffer with paid := true } 999 99999999 =
      .error .NotOwner := by
  constructor
  · exact ((C1_refund_timing_then_auth testDesk
      { testOffer with paid := true } 999 0 rfl rfl rfl rfl
      (by decide) (by decide)).1 (by decide)).2 rfl
  · exact ((C1_refund_timing_then_auth testDesk
      { testOffer with paid := true } 999 99999999 rfl rfl rfl rfl
      (by decide) (by decide)).2 (by decide) (by decide)).2 rfl

/-- A desk whose owner is also the beneficiary of `testOffer`. -/
def ownerIsBeneficiaryDesk : Desk := { testDesk with owner := 5 }

/-- Counterexample to C3 as stated: the owner may not always cancel at any
time — when the owner is also the offer beneficiary, the beneficiary branch
is taken first and cancellation before quote expiry fails with
`NotExpired` (owner 5 = beneficiary 5, now 0 < expiry 3600, unpaid and
unfulfilled offer, desk not paused). -/
theorem C3_counterexample_owner_is_beneficiary :
    ownerIsBeneficiaryDesk.owner = testOffer.beneficiary ∧
    testOffer.paid = false ∧ testOffer.fulfilled = false ∧
    ownerIsBeneficiaryDesk.paused = false ∧
    cancel_offer ownerIsBeneficiaryDesk testOffer 5 0 = .error .NotExpired :=
  ⟨rfl, rfl, rfl, rfl, rfl⟩

/-- Claim C3 (amended): on an unpaused desk, for an unpaid and unfulfilled
offer, a caller who is the beneficiary succeeds exactly when the quote
expiry has elapsed (`NotExpired` before); a caller who is not the
beneficiary but is owner, agent or approver succeeds at any time (the
beneficiary branch takes precedence, so a beneficiary-owner is still bound
by expiry); any other caller fails with `NotApprover`; and a paid or
fulfilled offer fails with `BadState`. -/
theorem C3_cancel_authorization :
    ∀ (desk : Desk) (offer : Offer) (caller : Pubkey) (now : Int),
      desk.paused = false →
      ((offer.paid = false → offer.fulfilled = false →
        caller = offer.beneficiary →
        (I64MIN ≤ offer.created_at + desk.quote_expiry_secs ∧
         offer.created_at + desk.quote_expiry_secs ≤ I64MAX) →
        (now < offer.created_at + desk.quote_expiry_secs →
          cancel_offer desk offer caller now = .error .NotExpired) ∧
        (offer.created_at + desk.quote_expiry_secs ≤ now →
          cancel_offer desk offer caller now =
            .ok { offer with cancelled := true })) ∧
       (offer.paid = false → offer.fulfilled = false →
        ¬ caller = offer.beneficiary →
        (caller = desk.owner ∨ caller = desk.agent ∨
         desk.approvers.contains caller) →
        cancel_offer desk offer caller now =
          .ok { offer with cancelled := true }) ∧
       (offer.paid = false → offer.fulfilled = false →
        ¬ caller = offer.beneficiary →
        ¬ (caller = desk.owner ∨ caller = desk.agent ∨
           desk.approvers.contains caller) →
        cancel_offer desk offer caller now = .error .NotApprover) ∧
       ((offer.paid = true ∨ offer.fulfilled = true) →
        cancel_offer desk offer caller now = .error .BadState)) := by
  intro desk offer caller now hp
  refine ⟨?_, ?_, ?_, ?_⟩
  · intro hpd hf hben hb
    obtain ⟨hba, hbb⟩ := hb
    constructor
    · intro ht
      simp [cancel_offer, checked_add_i64, hp, hpd, hf, hben, hba, hbb, ht]
    · intro ht
      simp [cancel_offer, checked_add_i64, hp, hpd, hf, hben, hba, hbb,
        not_lt.mpr ht]
  · intro hpd hf hben hrole
    rcases hrole with h | h | h <;>
      simp [cancel_offer, hp, hpd, hf, hben, h] <;>
      simp_all
  · intro hpd hf hben hrole
    push_neg at hrole
    obtain ⟨h1, h2, h3⟩ := hrole
    have h3n : caller ∉ desk.approvers := by simpa using h3
    simp [cancel_offer, hp, hpd, hf, hben, h1, h2, h3n]
  · intro hbad
    rcases hbad with h | h <;> simp [cancel_offer, hp, h]

/-- Witness for C3 at concrete inputs: beneficiary blocked before expiry
and allowed after; the agent (not the beneficiary) cancels immediately; an
unrelated caller is rejected; a paid offer yields `BadState`. -/
theorem C3_cancel_authorization_witness :
    cancel_offer testDesk testOffer 5 0 = .error .NotExpired ∧
    cancel_offer testDesk testOffer 5 3600 = .ok { testOffer with cancelled := true } ∧
    cancel_offer testDesk testOffer 2 0 = .ok { testOffer with cancelled := true } ∧
    cancel_offer testDesk testOffer 999 0 = .error .NotApprover ∧
    cancel_offer testDesk { testOffer with paid := true } 999 0 =
      .error .BadState := by
  refine ⟨?_, ?_, ?_, ?_, ?_⟩
  · exact ((C3_cancel_authorization testDesk testOffer 5 0 rfl).1 rfl rfl rfl
      (by decide)).1 (by decide)
  · exact ((C3_cancel_authorization testDesk testOffer 5 3600 rfl).1 rfl rfl rfl
      (by decide)).2 (by decide)
  · exact (C3_cancel_authorization testDesk testOffer 2 0 rfl).2.1 rfl rfl
      (by decide) (Or.inr (Or.inl rfl))
  · exact (C3_cancel_authorization testDesk testOffer 999 0 rfl).2.2.1 rfl rfl
      (by decide) (by decide)
  · exact (C3_cancel_authorization testDesk { testOffer with paid := true }
      999 0 rfl).2.2.2 (Or.inl rfl)

/-- Projection of the offer record produced by a successful offer
creation. -/
def created_offer_paid (r : Except OtcError (Desk × Consignment × Offer)) :
    Option Bool :=
  match r with
  | .ok (_, _, o) => some o.paid
  | .error _ => none

/-- An offer that has been paid for (the state after a successful USDC
fulfillment of `testOffer`). -/
def paidOffer : Offer :=
  { testOffer with
    approved := true
    paid := true
    payer := 7
    amount_paid := 9500 }

/-- Claim C2, failing input: `create_offer_from_consignment` accepts an
existing offer account (`init_if_needed`) and overwrites every field, so
running it against the already-paid `paidOffer` succeeds and leaves the
account with `paid = false` — the code resets a true `paid` flag, against
the specified monotonicity. The other operations do preserve it: the second
conjunct shows `cancel_offer` can never return success once `fulfilled` is
true. -/
theorem C2_paid_reset_by_reinit :
    (paidOffer.paid = true ∧
     created_offer_paid (create_offer_from_consignment testDesk 0 testCons
       testReg 5 paidOffer 1 100 500 1 0 0) = some false) ∧
    (∀ (desk : Desk) (offer : Offer) (caller : Pubkey) (now : Int)
       (o' : Offer),
      offer.fulfilled = true →
      cancel_offer desk offer caller now ≠ .ok o') := by
  constructor
  · exact ⟨rfl, rfl⟩
  · intro desk offer caller now o' hf h
    simp only [cancel_offer] at h
    split_ifs at h <;> simp_all

/-- Witness for C2 at concrete inputs: a fulfilled offer can never be
cancelled. -/
theorem C2_paid_reset_by_reinit_witness :
    cancel_offer testDesk { testOffer with fulfilled := true } 2 0 ≠
      .ok { testOffer with fulfilled := true, cancelled := true } :=
  C2_paid_reset_by_reinit.2 testDesk { testOffer with fulfilled := true } 2 0
    { testOffer with fulfilled := true, cancelled := true } rfl

/-- Shape of a successful approve: only the approved flag is set, and the
guards pin the prior flags. -/
theorem approve_offer_ok_shape (desk : Desk) (offer : Offer) (a : Pubkey)
    (o : Offer) (h : approve_offer desk offer a = .ok o) :
    o = { offer with approved := true } ∧ offer.cancelled = false ∧
      offer.paid = false := by
  unfold approve_offer must_be_approver at h
  repeat' first
    | (split at h)
    | (split_ifs at h)
  all_goals simp_all

/-- Shape of a successful cancel: only the cancelled flag is set, and the
guards pin the prior flags. -/
theorem cancel_offer_ok_shape (desk : Desk) (offer : Offer) (c : Pubkey)
    (now : Int) (o : Offer) (h : cancel_offer desk offer c now = .ok o) :
    o = { offer with cancelled := true } ∧ offer.paid = false ∧
      offer.fulfilled = false := by
  unfold cancel_offer at h
  repeat' first
    | (split at h)
    | (split_ifs at h)
  all_goals simp_all

/-- Shape of a successful USDC fulfillment: payment fields and the paid
flag are set, and the guards pin the prior flags. -/
theorem fulfill_offer_usdc_ok_shape (desk : Desk) (offer : Offer) (bal : Nat)
    (payer : Pubkey) (now : Int) (d : Desk) (o : Offer) (amt : Nat)
    (h : fulfill_offer_usdc desk offer bal payer now = .ok (d, o, amt)) :
    o = { offer with amount_paid := amt, payer := payer, paid := true } ∧
      offer.approved = true ∧ offer.cancelled = false ∧ offer.paid = false ∧
      offer.fulfilled = false := by
  unfold fulfill_offer_usdc at h
  repeat' first
    | (split at h)
    | (split_ifs at h)
  all_goals
    first
      | (exact Except.noConfusion h)
      | (simp only [Except.ok.injEq, Prod.mk.injEq] at h
         obtain ⟨hd, ho, hamt⟩ := h
         subst ho
         subst hamt
         refine ⟨rfl, ?_, ?_, ?_, ?_⟩ <;> simp_all)

/-- Shape of a successful SOL fulfillment: payment fields and the paid flag
are set, and the guards pin the prior flags. -/
theorem fulfill_offer_sol_ok_shape (desk : Desk) (offer : Offer) (bal : Nat)
    (payer : Pubkey) (now : Int) (d : Desk) (o : Offer) (amt : Nat)
    (h : fulfill_offer_sol desk offer bal payer now = .ok (d, o, amt)) :
    o = { offer with amount_paid := amt, payer := payer, paid := true } ∧
      offer.approved = true ∧ offer.cancelled = false ∧ offer.paid = false ∧
      offer.fulfilled = false := by
  unfold fulfill_offer_sol at h
  simp only [] at h
  by_cases hsp : offer.sol_usd_price_8d > 0
  all_goals first
    | (rw [if_pos hsp] at h)
    | (rw [if_neg hsp] at h)
  all_goals
    repeat' first
      | (split at h)
      | (split_ifs at h)
  all_goals
    first
      | (exact Except.noConfusion h)
      | (simp only [Except.ok.injEq, Prod.mk.injEq] at h
         obtain ⟨hd, ho, hamt⟩ := h
         subst ho
         subst hamt
         refine ⟨rfl, ?_, ?_, ?_, ?_⟩ <;> simp_all)

/-- Shape of a successful claim: only the fulfilled flag is set, and the
guards pin the prior flags. -/
theorem claim_ok_shape (desk : Desk) (dk ds : Pubkey) (offer : Offer)
    (b : Pubkey) (now : Int) (d : Desk) (o : Offer)
    (h : claim desk dk ds offer b now = .ok (d, o)) :
    o = { offer with fulfilled := true } ∧ offer.paid = true ∧
      offer.cancelled = false ∧ offer.fulfilled = false := by
  unfold claim at h
  repeat' first
    | (split at h)
    | (split_ifs at h)
  all_goals simp_all

/-- Shape of a successful SOL emergency refund: only the cancelled flag is
set, and the guards pin the prior flags. -/
theorem emergency_refund_sol_ok_shape (desk : Desk) (offer : Offer)
    (c : Pubkey) (now : Int) (d : Desk) (o : Offer)
    (h : emergency_refund_sol desk offer c now = .ok (d, o)) :
    o = { offer with cancelled := true } ∧ offer.paid = true ∧
      offer.fulfilled = false ∧ offer.cancelled = false := by
  unfold emergency_refund_sol at h
  repeat' first
    | (split at h)
    | (split_ifs at h)
  all_goals simp_all

/-- Shape of a successful USDC emergency refund: only the cancelled flag is
set, and the guards pin the prior flags. -/
theorem emergency_refund_usdc_ok_shape (desk : Desk) (offer : Offer)
    (c : Pubkey) (now : Int) (d : Desk) (o : Offer)
    (h : emergency_refund_usdc desk offer c now = .ok (d, o)) :
    o = { offer with cancelled := true } ∧ offer.paid = true ∧
      offer.fulfilled = false ∧ offer.cancelled = false := by
  unfold emergency_refund_usdc at h
  repeat' first
    | (split at h)
    | (split_ifs at h)
  all_goals simp_all

set_option maxHeartbeats 1600000 in
/-- Shape of a successful offer creation: every lifecycle flag of the
written record is false, whatever was stored at the account before. -/
theorem create_offer_ok_shape (desk : Desk) (dk : Pubkey)
    (cons : Consignment) (reg : TokenRegistry) (b : Pubkey) (prev : Offer)
    (cid amt disc cur : Nat) (lock now : Int) (d : Desk) (c : Consignment)
    (o : Offer)
    (h : create_offer_from_consignment desk dk cons reg b prev cid amt disc
      cur lock now = .ok (d, c, o)) :
    o.approved = false ∧ o.paid = false ∧ o.fulfilled = false ∧
      o.cancelled = false := by
  unfold create_offer_from_consignment at h
  repeat' first
    | (split at h)
    | (split_ifs at h)
  all_goals
    first
      | (exact Except.noConfusion h)
      | (simp only [Except.ok.injEq, Prod.mk.injEq] at h
         obtain ⟨hd, hc, ho⟩ := h
         subst ho
         exact ⟨rfl, rfl, rfl, rfl⟩)

/-- Claim C4: the flag invariant — at most one of fulfilled/cancelled, and
fulfilled implies paid and not cancelled — is preserved by every program
operation on an offer account. -/
theorem C4_offer_flag_invariant :
    ∀ (desk : Desk) (offer : Offer) (op : Op) (desk' : Desk) (offer' : Offer),
      OfferInv offer → applyOp desk offer op = .ok (desk', offer') →
      OfferInv offer' := by
  intro desk offer op desk' offer' hinv h
  cases op with
  | approve a =>
    simp only [applyOp] at h
    cases ha : approve_offer desk offer a with
    | error e => rw [ha] at h; exact absurd h (by simp)
    | ok o =>
      rw [ha] at h
      simp only [Except.ok.injEq, Prod.mk.injEq] at h
      obtain ⟨-, h2⟩ := h
      obtain ⟨hs, hc, hp⟩ := approve_offer_ok_shape desk offer a o ha
      subst h2
      subst hs
      simp only [OfferInv] at hinv ⊢
      simp_all
  | cancel c now =>
    simp only [applyOp] at h
    cases ha : cancel_offer desk offer c now with
    | error e => rw [ha] at h; exact absurd h (by simp)
    | ok o =>
      rw [ha] at h
      simp only [Except.ok.injEq, Prod.mk.injEq] at h
      obtain ⟨-, h2⟩ := h
      obtain ⟨hs, hp, hf⟩ := cancel_offer_ok_shape desk offer c now o ha
      subst h2
      subst hs
      simp [OfferInv, hf]
  | fulfillUsdc bal payer now =>
    simp only [applyOp] at h
    cases ha : fulfill_offer_usdc desk offer bal payer now with
    | error e => rw [ha] at h; exact absurd h (by simp)
    | ok t =>
      obtain ⟨d, o, amt⟩ := t
      rw [ha] at h
      simp only [Except.ok.injEq, Prod.mk.injEq] at h
      obtain ⟨-, h2⟩ := h
      obtain ⟨hs, _, hc, _, hf⟩ :=
        fulfill_offer_usdc_ok_shape desk offer bal payer now d o amt ha
      subst h2
      subst hs
      simp [OfferInv, hc, hf]
  | fulfillSol bal payer now =>
    simp only [applyOp] at h
    cases ha : fulfill_offer_sol desk offer bal payer now with
    | error e => rw [ha] at h; exact absurd h (by simp)
    | ok t =>
      obtain ⟨d, o, amt⟩ := t
      rw [ha] at h
      simp only [Except.ok.injEq, Prod.mk.injEq] at h
      obtain ⟨-, h2⟩ := h
      obtain ⟨hs, _, hc, _, hf⟩ :=
        fulfill_offer_sol_ok_shape desk offer bal payer now d o amt ha
      subst h2
      subst hs
      simp [OfferInv, hc, hf]
  | claimTokens dk ds b now =>
    obtain ⟨hs, hp, hc, hf⟩ := claim_ok_shape desk dk ds offer b now desk'
      offer' (by simpa [applyOp] using h)
    subst hs
    simp [OfferInv, hp, hc]
  | refundSol c now =>
    obtain ⟨hs, hp, hf, hc⟩ := emergency_refund_sol_ok_shape desk offer c now
      desk' offer' (by simpa [applyOp] using h)
    subst hs
    simp [OfferInv, hf]
  | refundUsdc c now =>
    obtain ⟨hs, hp, hf, hc⟩ := emergency_refund_usdc_ok_shape desk offer c now
      desk' offer' (by simpa [applyOp] using h)
    subst hs
    simp [OfferInv, hf]
  | create dk cons reg b cid amt disc cur lock now =>
    simp only [applyOp] at h
    cases ha : create_offer_from_consignment desk dk cons reg b offer cid amt
        disc cur lock now with
    | error e => rw [ha] at h; exact absurd h (by simp)
    | ok t =>
      obtain ⟨d, c, o⟩ := t
      rw [ha] at h
      simp only [Except.ok.injEq, Prod.mk.injEq] at h
      obtain ⟨-, h2⟩ := h
      obtain ⟨_, _, hf, hc⟩ := create_offer_ok_shape desk dk cons reg b offer
        cid amt disc cur lock now d c o ha
      subst h2
      simp [OfferInv, hf, hc]

/-- Witness for C4 at a concrete step: approving the concrete offer keeps
the invariant. -/
theorem C4_offer_flag_invariant_witness :
    OfferInv { testOffer with approved := true } :=
  C4_offer_flag_invariant testDesk testOffer (.approve 2) testDesk
    { testOffer with approved := true } (by simp [OfferInv, testOffer]) rfl

/-- The discounted-USD pipeline at the C6 parameters: 1000 whole tokens
(1000 * 10^dec raw units) at a frozen price of $1 (1e8) with a 500 bps
discount yields exactly 95,000,000,000, the 8-decimal representation of
$950, for any token decimal count up to 16 (the largest for which the raw
amount fits in u64). -/
theorem discounted_usd_quote_example (dec : Nat) (hdec : dec ≤ 16) :
    discounted_usd_8d (1000 * 10 ^ dec) 100000000 dec 500 =
      .ok 95000000000 := by
  have hpow : (10 : ℕ) ^ dec ≤ 10 ^ 16 := Nat.pow_le_pow_right (by norm_num) hdec
  have hpos : 0 < (10 : ℕ) ^ dec := pow_pos (by norm_num) dec
  have h1 : 1000 * 10 ^ dec * 100000000 ≤ U128MAX := by
    calc 1000 * 10 ^ dec * 100000000 = 100000000000 * 10 ^ dec := by ring
      _ ≤ 100000000000 * 10 ^ 16 := Nat.mul_le_mul le_rfl hpow
      _ ≤ U128MAX := by norm_num [U128MAX]
  have hdiv : 1000 * 10 ^ dec * 100000000 / 10 ^ dec = 100000000000 := by
    rw [show 1000 * 10 ^ dec * 100000000 = 100000000000 * 10 ^ dec from by ring]
    exact Nat.mul_div_cancel _ hpos
  have hp128 : (10 : ℕ) ^ dec < 2 ^ 128 := lt_of_le_of_lt hpow (by norm_num)
  unfold discounted_usd_8d mul_div_u128 pow10
  rw [Nat.mod_eq_of_lt hp128, if_pos h1, if_neg (Nat.pos_iff_ne_zero.mp hpos),
    hdiv]
  rfl

/-- Claim C6: a USDC fulfillment of an offer with a 500 bps discount, a
frozen price of 100,000,000 (8-decimal $1) per token and 1000 whole tokens
(1000 * 10^token_decimals raw units) charges exactly 950,000,000 6-decimal
USDC units ($950): the discounted 8-decimal total is rescaled 1e8 to 1e6
with ceiling division. -/
theorem C6_usdc_charge_exact :
    ∀ (desk : Desk) (offer : Offer) (bal : Nat) (payer : Pubkey) (now : Int)
      (d : Desk) (o : Offer) (amt : Nat),
      offer.discount_bps = 500 →
      offer.price_usd_per_token_8d = 100000000 →
      desk.token_decimals ≤ 16 →
      offer.token_amount = 1000 * 10 ^ desk.token_decimals →
      fulfill_offer_usdc desk offer bal payer now = .ok (d, o, amt) →
      amt = 950000000 ∧ o.amount_paid = 950000000 := by
  intro desk offer bal payer now d o amt hdisc hprice hdec hamt h
  unfold fulfill_offer_usdc at h
  simp only [hamt, hdisc, hprice,
    discounted_usd_quote_example desk.token_decimals hdec,
    show mul_div_ceil_u128 95000000000 1000000 100000000 = .ok 950000000
      from rfl,
    show trunc_u64 950000000 = 950000000 from rfl] at h
  repeat' first
    | (split at h)
    | (split_ifs at h)
  all_goals
    first
      | (exact Except.noConfusion h)
      | (simp only [Except.ok.injEq, Prod.mk.injEq] at h
         obtain ⟨-, ho, hamt2⟩ := h
         subst ho
         subst hamt2
         exact ⟨rfl, rfl⟩)

/-- The desk and consignment records of a successful offer creation. -/
def created_desk_cons (r : Except OtcError (Desk × Consignment × Offer)) :
    Option (Desk × Consignment) :=
  match r with
  | .ok (d, c, _) => some (d, c)
  | .error _ => none

/-- Claim C5: with the desk preconditions satisfied (unpaused, supported
currency, live negotiable consignment, positive fresh registry price) and
in-range arithmetic — including registry decimals at most 38, the range in
which the source's `10u128.pow` computes the true power instead of
overflowing — creation with (amount, discount, lockup) inside the
consignment bounds and a discounted total at least the desk minimum
succeeds, decrements `remaining_amount` by exactly the amount and
deactivates the consignment when it reaches zero; violating the amount
bounds, remaining inventory, discount range or lockup range fails with
AmountRange, InsuffInv, Discount, LockupTooLong respectively (first
violated check in source order), returning only an error and hence leaving
the consignment unchanged. -/
theorem C5_create_offer_bounds :
    ∀ (desk : Desk) (dk : Pubkey) (cons : Consignment) (reg : TokenRegistry)
      (b : Pubkey) (prev : Offer) (cid amt disc cur : Nat) (lock now : Int),
      desk.paused = false →
      (cur = 0 ∨ cur = 1) →
      cons.is_active = true →
      cons.is_negotiable = true →
      reg.token_usd_price_8d > 0 →
      (reg.prices_updated_at > 0 →
        now - reg.prices_updated_at ≤ desk.max_price_age_secs) →
      ((reg.decimals ≤ 38 →
        (cons.min_deal_amount ≤ amt ∧ amt ≤ cons.max_deal_amount) →
        amt ≤ cons.remaining_amount →
        (cons.min_discount_bps ≤ disc ∧ disc ≤ cons.max_discount_bps) →
        ((cons.min_lockup_days : Int) ≤ lock.tdiv 86400 ∧
          lock.tdiv 86400 ≤ (cons.max_lockup_days : Int)) →
        disc ≤ 10000 →
        amt * reg.token_usd_price_8d ≤ U128MAX →
        amt * reg.token_usd_price_8d / pow10 reg.decimals < 2 ^ 64 →
        amt * reg.token_usd_price_8d / pow10 reg.decimals * (10000 - disc) ≤
          U64MAX →
        amt * reg.token_usd_price_8d / pow10 reg.decimals * (10000 - disc) /
          10000 ≥ desk.min_usd_amount_8d →
        desk.next_offer_id + 1 ≤ U64MAX →
        (I64MIN ≤ now + lock ∧ now + lock ≤ I64MAX) →
        created_desk_cons (create_offer_from_consignment desk dk cons reg b
            prev cid amt disc cur lock now) =
          some ({ desk with next_offer_id := desk.next_offer_id + 1 },
                { cons with
                    remaining_amount := cons.remaining_amount - amt,
                    is_active :=
                      if cons.remaining_amount - amt = 0 then false
                      else true })) ∧
       (¬ (cons.min_deal_amount ≤ amt ∧ amt ≤ cons.max_deal_amount) →
        create_offer_from_consignment desk dk cons reg b prev cid amt disc cur
          lock now = .error .AmountRange) ∧
       ((cons.min_deal_amount ≤ amt ∧ amt ≤ cons.max_deal_amount) →
        ¬ amt ≤ cons.remaining_amount →
        create_offer_from_consignment desk dk cons reg b prev cid amt disc cur
          lock now = .error .InsuffInv) ∧
       ((cons.min_deal_amount ≤ amt ∧ amt ≤ cons.max_deal_amount) →
        amt ≤ cons.remaining_amount →
        ¬ (cons.min_discount_bps ≤ disc ∧ disc ≤ cons.max_discount_bps) →
        create_offer_from_consignment desk dk cons reg b prev cid amt disc cur
          lock now = .error .Discount) ∧
       ((cons.min_deal_amount ≤ amt ∧ amt ≤ cons.max_deal_amount) →
        amt ≤ cons.remaining_amount →
        (cons.min_discount_bps ≤ disc ∧ disc ≤ cons.max_discount_bps) →
        ¬ ((cons.min_lockup_days : Int) ≤ lock.tdiv 86400 ∧
           lock.tdiv 86400 ≤ (cons.max_lockup_days : Int)) →
        create_offer_from_consignment desk dk cons reg b prev cid amt disc cur
          lock now = .error .LockupTooLong)) := by
  intro desk dk cons reg b prev cid amt disc cur lock now hp hcur hact hneg
    hprice hstale
  have hst2 : ¬ (reg.prices_updated_at > 0 ∧
      ¬ now - reg.prices_updated_at ≤ desk.max_price_age_secs) := by tauto
  refine ⟨?_, ?_, ?_, ?_, ?_⟩
  · intro hdec38 hb hrem hdb hlk hd10 h128 htr hmul hmin hnext hun
    have hp38 : (10 : ℕ) ^ reg.decimals < 2 ^ 128 := by
      calc (10 : ℕ) ^ reg.decimals ≤ 10 ^ 38 :=
            Nat.pow_le_pow_right (by norm_num) hdec38
        _ < 2 ^ 128 := by norm_num
    have hne : pow10 reg.decimals ≠ 0 := by
      unfold pow10
      rw [Nat.mod_eq_of_lt hp38]
      exact Nat.pos_iff_ne_zero.mp (pow_pos (by norm_num) _)
    have hval : create_offer_validate desk cons reg amt disc cur lock now =
        .ok () := by
      simp only [create_offer_validate, hp, hcur, hact, hneg, hb.1, hb.2,
        hrem, hdb.1, hdb.2, hlk.1, hlk.2, hprice, hst2]
      simp
    have hdd : discounted_usd_8d amt reg.token_usd_price_8d reg.decimals disc =
        .ok (amt * reg.token_usd_price_8d / pow10 reg.decimals *
          (10000 - disc) / 10000) := by
      have htr2 := htr
      norm_num at htr2
      unfold discounted_usd_8d mul_div_u128 checked_mul_u64 trunc_u64
      rw [if_pos h128, if_neg hne]
      simp [Nat.mod_eq_of_lt htr2, hmul]
    simp [create_offer_from_consignment, hval, hdd, checked_sub_u64,
      checked_add_u64, checked_add_i64, created_desk_cons, hrem, hmin, hnext,
      hun.1, hun.2, hact]
  · intro hb
    simp [create_offer_from_consignment, create_offer_validate, hp, hcur,
      hact, hb]
  · intro hb hrem
    simp [create_offer_from_consignment, create_offer_validate, hp, hcur,
      hact, hb.1, hb.2, hrem]
  · intro hb hrem hdb
    simp [create_offer_from_consignment, create_offer_validate, hp, hcur,
      hact, hneg, hb.1, hb.2, hrem, hdb]
  · intro hb hrem hdb hlk
    simp [create_offer_from_consignment, create_offer_validate, hp, hcur,
      hact, hneg, hb.1, hb.2, hrem, hdb.1, hdb.2, hlk]

/-- Witness for C5 at concrete inputs: a valid creation decrements the
remaining amount from 1000 to 900; each out-of-bounds input yields its
error kind. -/
theorem C5_create_offer_bounds_witness :
    created_desk_cons (create_offer_from_consignment testDesk 0 testCons
        testReg 5 testOffer 1 100 500 1 0 0) =
      some ({ testDesk with next_offer_id := 2 },
            { testCons with remaining_amount := 900, is_active := true }) ∧
    create_offer_from_consignment testDesk 0 testCons testReg 5 testOffer 1 0
      500 1 0 0 = .error .AmountRange ∧
    create_offer_from_consignment testDesk 0
      { testCons with remaining_amount := 50 } testReg 5 testOffer 1 100 500 1
      0 0 = .error .InsuffInv ∧
    create_offer_from_consignment testDesk 0 testCons testReg 5 testOffer 1
      100 2000 1 0 0 = .error .Discount ∧
    create_offer_from_consignment testDesk 0 testCons testReg 5 testOffer 1
      100 500 1 34560000 0 = .error .LockupTooLong := by
  refine ⟨?_, ?_, ?_, ?_, ?_⟩
  · exact (C5_create_offer_bounds testDesk 0 testCons testReg 5 testOffer 1
      100 500 1 0 0 rfl (Or.inr rfl) rfl rfl (by decide) (by decide)).1
      (by decide) (by decide) (by decide) (by decide) (by decide) (by decide)
      (by decide) (by decide) (by decide) (by decide) (by decide) (by decide)
  · exact (C5_create_offer_bounds testDesk 0 testCons testReg 5 testOffer 1
      0 500 1 0 0 rfl (Or.inr rfl) rfl rfl (by decide) (by decide)).2.1
      (by decide)
  · exact (C5_create_offer_bounds testDesk 0
      { testCons with remaining_amount := 50 } testReg 5 testOffer 1 100 500 1
      0 0 rfl (Or.inr rfl) rfl rfl (by decide) (by decide)).2.2.1 (by decide)
      (by decide)
  · exact (C5_create_offer_bounds testDesk 0 testCons testReg 5 testOffer 1
      100 2000 1 0 0 rfl (Or.inr rfl) rfl rfl (by decide) (by decide)).2.2.2.1
      (by decide) (by decide) (by decide)
  · exact (C5_create_offer_bounds testDesk 0 testCons testReg 5 testOffer 1
      100 500 1 34560000 0 rfl (Or.inr rfl) rfl rfl (by decide)
      (by decide)).2.2.2.2 (by decide) (by decide) (by decide) (by decide)

/-- The C6 offer instance: 1000 whole tokens of a 6-decimal token, 500 bps
discount, $1 frozen price, USDC settlement, approved and unpaid. -/
def c6Offer : Offer :=
  { testOffer with token_amount := 1000000000, approved := true }

/-- Witness for C6 at concrete inputs: fulfilling `c6Offer` against
`testDesk` records an `amount_paid` of exactly 950,000,000. -/
theorem C6_usdc_charge_exact_witness :
    ({ c6Offer with amount_paid := 950000000, payer := 7, paid := true } :
      Offer).amount_paid = 950000000 :=
  (C6_usdc_charge_exact testDesk c6Offer 2000000000 7 0
    { testDesk with token_reserved := 1000000100 }
    { c6Offer with amount_paid := 950000000, payer := 7, paid := true }
    950000000 rfl rfl (by decide) rfl rfl).2

end Otc
